import Mathlib

/-!
# m8js: command dispatch, virtual joystick projection and the control loop

A shallow embedding of `src/command.c`, `src/virtualjoystick.c` and the control
loop of `src/main.c`.

* Bytes and C integers are `Nat` / `Int`; a packet `(data, size)` is the list of
  its `size` bytes.
* Calls that leave the program (`write` on the uinput descriptor, `printf`,
  `fprintf`, the serial port) are recorded in explicit state, and what they
  return is read from an environment of oracles.
* Loops whose termination is not structural carry a fuel argument.
* The stack array of `process_command` is a list; whether it can be declared is
  decided by its 32-bit length and by the room on the stack, `Env.stack`.
-/

namespace M8

/-! ## Results of running C code -/

/-- Result of running a piece of C code: it ran to completion, it read an array
out of range or declared an array that cannot exist (undefined behaviour), or
the fuel ran out while a loop was still going. -/
inductive Outcome (α : Type) where
  | done (a : α)
  | undefined
  | timeout
deriving DecidableEq, Repr

/-- Sequencing of two pieces of code. -/
def Outcome.bind {α β : Type} (x : Outcome α) (f : α → Outcome β) : Outcome β :=
  match x with
  | .done a => f a
  | .undefined => .undefined
  | .timeout => .timeout

/-! ## Constants of `linux/input-event-codes.h` used by `virtualjoystick.c` -/

def EV_SYN : Nat := 0x00
def EV_KEY : Nat := 0x01
def SYN_REPORT : Nat := 0
def BTN_A : Nat := 0x130
def BTN_B : Nat := 0x131
def BTN_SELECT : Nat := 0x13a
def BTN_START : Nat := 0x13b
def BTN_DPAD_UP : Nat := 0x220
def BTN_DPAD_DOWN : Nat := 0x221
def BTN_DPAD_LEFT : Nat := 0x222
def BTN_DPAD_RIGHT : Nat := 0x223

/-- The `struct input_event` fields assigned by the program; the `time` field
stays zero-initialised and is left out. -/
structure input_event where
  type : Nat
  code : Nat
  value : Int
deriving DecidableEq, Repr

/-! ## `keycodes_t` (virtualjoystick.c): bits of M8 input messages -/

def key_left : Nat := 1 <<< 7
def key_up : Nat := 1 <<< 6
def key_down : Nat := 1 <<< 5
def key_select : Nat := 1 <<< 4
def key_start : Nat := 1 <<< 3
def key_right : Nat := 1 <<< 2
def key_opt : Nat := 1 <<< 1
def key_edit : Nat := 1

/-! ## Program state and diagnostics -/

/-- One diagnostic emission (`printf`, `fprintf(stderr, ...)` or `perror`), in
program order. -/
inductive Diag where
  /-- `printf("Invalid joypad keypressed state packet: expected length %d, got %d\n", ..)` -/
  | invalid_joypad (expected got : Nat)
  /-- `fprintf(stderr, "0x%02X ", recv_buf[a])` in `dump_packet` -/
  | hex_byte (b : Nat)
  /-- `fprintf(stderr, "\n")` closing `dump_packet` -/
  | newline
  /-- `fprintf(stderr, "Invalid system info packet: expected length %d, got %d\n", ..)` -/
  | invalid_system_info (expected got : Nat)
  /-- `fprintf(stderr, "** Hardware info ** Device type: %s, Firmware ver %d.%d.%d\n", ..)` -/
  | hardware_info (device_type : String) (major minor patch : Nat)
  /-- `fprintf(stderr, "Invalid packet")` -/
  | invalid_packet
  /-- `perror("write")` in `send_virtual_joystick_message` -/
  | perror_write
deriving DecidableEq, Repr

/-- What `process_command` and `send_virtual_joystick_message` read and change. -/
structure State where
  /-- `static int system_info_printed = 0;` of `process_command` -/
  system_info_printed : Int
  /-- buffers handed to `write(fd, &ev, sizeof ev)`, oldest first -/
  uinput : List (List input_event)
  /-- diagnostics emitted so far, oldest first -/
  log : List Diag
deriving DecidableEq, Repr

/-- State at process start. -/
def State.init : State := ⟨0, [], []⟩

def State.emit (s : State) (d : Diag) : State :=
  { s with log := s.log ++ [d] }

/-- What the program cannot compute: the results of the calls that leave it,
and the room on its stack. -/
structure Env where
  /-- return value of the `n`-th call (from 0) of `write` on the uinput descriptor -/
  write : Nat → Int
  /-- bytes of stack that the array `rx_buffer` of `process_command` may take -/
  stack : Nat
  /-- the stack has room for the copy of any packet within the range of the
  16-bit index of `dump_packet` -/
  stack_min : 65536 ≤ stack

/-! ## virtualjoystick.c -/

/-- C truth value of `x > 0`. -/
def gt_zero (x : Nat) : Int := if x > 0 then 1 else 0

/-- The assignments `ev[i].type = t; ev[i].code = c; ev[i].value = v;`. -/
def set_event (ev : List input_event) (i t c : Nat) (v : Int) : List input_event :=
  ev.set i ⟨t, c, v⟩

/-- `int send_virtual_joystick_message(uint8_t keycode)`. -/
def send_virtual_joystick_message (env : Env) (keycode : Nat) (s : State) : Int × State :=
  let ev : List input_event := List.replicate 9 ⟨0, 0, 0⟩
  let ev := set_event ev 0 EV_KEY BTN_DPAD_UP (gt_zero (keycode &&& key_up))
  let ev := set_event ev 1 EV_KEY BTN_DPAD_DOWN (gt_zero (keycode &&& key_down))
  let ev := set_event ev 2 EV_KEY BTN_DPAD_LEFT (gt_zero (keycode &&& key_left))
  let ev := set_event ev 3 EV_KEY BTN_DPAD_RIGHT (gt_zero (keycode &&& key_right))
  let ev := set_event ev 4 EV_KEY BTN_A (gt_zero (keycode &&& key_edit))
  let ev := set_event ev 5 EV_KEY BTN_B (gt_zero (keycode &&& key_opt))
  let ev := set_event ev 6 EV_KEY BTN_START (gt_zero (keycode &&& key_start))
  let ev := set_event ev 7 EV_KEY BTN_SELECT (gt_zero (keycode &&& key_select))
  -- Sync message
  let ev := set_event ev 8 EV_SYN SYN_REPORT 0
  let s1 : State := { s with uinput := s.uinput ++ [ev] }
  if env.write s.uinput.length < 0 then
    (0, s1.emit .perror_write)
  else
    (1, s1)

/-- The state snapshot for `keycode` in the words of the specification: the
eight buttons dpad-up, dpad-down, dpad-left, dpad-right, A, B, start, select,
each pressed (1) exactly when its bit of `keycode` is set (left = bit 7,
up = bit 6, down = bit 5, select = bit 4, start = bit 3, right = bit 2,
opt/B = bit 1, edit/A = bit 0), followed by the sync marker. -/
def snapshot (keycode : Nat) : List input_event :=
  let pressed (bit : Nat) : Int := if keycode.testBit bit = true then 1 else 0
  [⟨EV_KEY, BTN_DPAD_UP, pressed 6⟩,
   ⟨EV_KEY, BTN_DPAD_DOWN, pressed 5⟩,
   ⟨EV_KEY, BTN_DPAD_LEFT, pressed 7⟩,
   ⟨EV_KEY, BTN_DPAD_RIGHT, pressed 2⟩,
   ⟨EV_KEY, BTN_A, pressed 0⟩,
   ⟨EV_KEY, BTN_B, pressed 1⟩,
   ⟨EV_KEY, BTN_START, pressed 3⟩,
   ⟨EV_KEY, BTN_SELECT, pressed 4⟩,
   ⟨EV_SYN, SYN_REPORT, 0⟩]

/-- A sink that takes every buffer whole: `write` returns `sizeof ev`, 9 events
of 24 bytes. The stack is the 8 MiB of a Linux process. -/
def Env.accepting : Env :=
  { write := fun _ => 216
    stack := 8388608
    stack_min := by decide }

/-- A sink on which every `write` fails. -/
def Env.failing : Env :=
  { write := fun _ => -1
    stack := 8388608
    stack_min := by decide }

/-! ## command.c -/

/-! ### `enum m8_command_bytes` -/

def draw_rectangle_command : Nat := 0xFE
def draw_rectangle_command_min_datalength : Nat := 5
def draw_rectangle_command_max_datalength : Nat := 12
def draw_character_command : Nat := 0xFD
def draw_character_command_datalength : Nat := 12
def draw_oscilloscope_waveform_command : Nat := 0xFC
def draw_oscilloscope_waveform_command_mindatalength : Nat := 1 + 3
def draw_oscilloscope_waveform_command_maxdatalength : Nat := 1 + 3 + 480
def joypad_keypressedstate_command : Nat := 0xFB
def joypad_keypressedstate_command_datalength : Nat := 3
def system_info_command : Nat := 0xFF
def system_info_command_datalength : Nat := 6

/-- The loop `for (uint16_t a = 0; a < size; a++) fprintf(stderr, "0x%02X ", recv_buf[a]);`
of `dump_packet`, entered with loop variable `a`. The variable is 16 bits wide,
so `a++` wraps at 65536, while `size` is a `uint32_t`. -/
def dump_packet_loop (size : Nat) (recv_buf : List Nat) : Nat → Nat → State → Outcome State
  | 0, _, _ => .timeout
  | fuel + 1, a, s =>
    if a < size then
      match recv_buf.get? a with
      | some b => dump_packet_loop size recv_buf fuel ((a + 1) % 65536) (s.emit (.hex_byte b))
      | none => .undefined
    else
      .done s

/-- `static void dump_packet(const uint32_t size, const uint8_t *recv_buf)`. -/
def dump_packet (fuel : Nat) (size : Nat) (recv_buf : List Nat) (s : State) : Outcome State :=
  (dump_packet_loop size recv_buf fuel 0 s).bind fun s1 =>
  .done (s1.emit .newline)

/-- `const char *hw_type[4]` of `process_command`. -/
def hw_type : List String :=
  ["Headless", "Beta M8", "Production M8", "Production M8 Model:02"]

/-- `int process_command(uint8_t *data, uint32_t size)`, with `size = data.length`.
`rx_buffer` is the variable-length stack array `uint8_t rx_buffer[size + 1]`: the
copy of the packet followed by the zero written at index `size`. Its length
`size + 1` is computed in 32 bits; when that wraps to 0 (or `data` is longer
than a `uint32_t` can say), or when the array does not fit the stack, the
declaration is undefined behaviour. An array read outside `rx_buffer` or
`hw_type` gives `Outcome.undefined` too. -/
def process_command (env : Env) (fuel : Nat) (data : List Nat) (s : State) :
    Outcome (Int × State) :=
  let size := data.length
  if 4294967296 ≤ size + 1 then
    .undefined
  else if env.stack < size + 1 then
    .undefined
  else
  let rx_buffer := data ++ [0]
  match rx_buffer.get? 0 with
  | none => .undefined
  | some command =>
    if command = joypad_keypressedstate_command then
      if size ≠ joypad_keypressedstate_command_datalength then
        let s1 := s.emit (.invalid_joypad joypad_keypressedstate_command_datalength size)
        (dump_packet fuel size rx_buffer s1).bind fun s2 =>
        .done (0, s2)
      else
        match rx_buffer.get? 1 with
        | none => .undefined
        | some keycode =>
          let (sent, s1) := send_virtual_joystick_message env keycode s
          if sent ≠ 0 then
            .done (1, s1)
          else
            .done (0, s1)
    else if command = system_info_command then
      if size ≠ system_info_command_datalength then
        let s1 := s.emit (.invalid_system_info system_info_command_datalength size)
        (dump_packet fuel size rx_buffer s1).bind fun s2 =>
        -- `break;` leaves the switch: the function ends in its final `return 1;`
        .done (1, s2)
      else if s.system_info_printed = 0 then
        match rx_buffer.get? 1, rx_buffer.get? 2, rx_buffer.get? 3, rx_buffer.get? 4 with
        | some t, some major, some minor, some patch =>
          match hw_type.get? t with
          | some name =>
            let s1 := s.emit (.hardware_info name major minor patch)
            .done (1, { s1 with system_info_printed := 1 })
          | none => .undefined
        | _, _, _, _ => .undefined
      else
        .done (1, s)
    else if command = draw_character_command
        ∨ command = draw_oscilloscope_waveform_command
        ∨ command = draw_rectangle_command then
      -- These are not needed: `break;`, then the final `return 1;`
      .done (1, s)
    else
      let s1 := s.emit .invalid_packet
      (dump_packet fuel size rx_buffer s1).bind fun s2 =>
      .done (0, s2)

/-- The calls of `process_command` made for a succession of complete packets,
as the SLIP handler makes them through its `recv_message` callback: the return
values in order, and the state after the last call. -/
def process_packets (env : Env) (fuel : Nat) : List (List Nat) → State →
    Outcome (List Int × State)
  | [], s => .done ([], s)
  | p :: ps, s =>
    (process_command env fuel p s).bind fun r =>
    (process_packets env fuel ps r.2).bind fun rs =>
    .done (r.1 :: rs.1, rs.2)

/-- `enum application_state { ERROR, QUIT, RUN };` -/
inductive application_state where
  | ERROR
  | QUIT
  | RUN
deriving DecidableEq, Repr

def EXIT_SUCCESS : Int := 0
def EXIT_FAILURE : Int := 1

/-- Calls that `main` makes on its collaborators, in program order. -/
inductive Call where
  | initialize_serial
  | enable_and_reset_display
  | initialize_virtual_joystick
  | serial_read
  /-- `fprintf(stderr, "Error %d reading serial.", bytes_read)` -/
  | error_reading_serial (bytes_read : Int)
  | slip_read_byte (byte : Nat)
  | reset_display
  /-- `fprintf(stderr, "SLIP error %d\n", n)` -/
  | slip_error (n : Int)
  | check_serial_port
  | disconnect
  | usleep (usec : Nat)
  | destroy_virtual_joystick
deriving DecidableEq, Repr

/-- Oracles of `main`. The SLIP library (`slip.h`) is not part of the sources:
its handler state is the type `σ`, which also holds whatever the
`recv_message` callback `process_command` changes, and `slip_read_byte` and
its two error codes are taken as given. -/
structure MainEnv (σ : Type) where
  initialize_serial : Int
  enable_and_reset_display : Int
  initialize_virtual_joystick : Int
  /-- `n`-th call (from 0) of `serial_read`: return value and contents of `serial_buf` -/
  serial_read : Nat → Int × List Nat
  /-- return value of the `n`-th call (from 0) of `check_serial_port` -/
  check_serial_port : Nat → Int
  slip_read_byte : σ → Nat → Int × σ
  SLIP_NO_ERROR : Int
  SLIP_ERROR_INVALID_PACKET : Int

/-- The globals `state` and `empty_packet_counter`, the SLIP handler, and the
calls made so far (oldest first). -/
structure Main (σ : Type) where
  state : application_state
  empty_packet_counter : Int
  slip : σ
  calls : List Call

variable {σ : Type}

def Main.call (m : Main σ) (c : Call) : Main σ :=
  { m with calls := m.calls ++ [c] }

/-- Number of `serial_read` calls made so far. -/
def Main.reads (m : Main σ) : Nat := m.calls.count .serial_read

/-- Number of `check_serial_port` calls made so far. -/
def Main.probes (m : Main σ) : Nat := m.calls.count .check_serial_port

/-- Number of `disconnect` calls made so far. -/
def Main.disconnects (m : Main σ) : Nat := m.calls.count .disconnect

/-- The loop `while (cur < end)` over the bytes just read. -/
def feed_bytes (env : MainEnv σ) : List Nat → Main σ → Main σ
  | [], m => m
  | byte :: rest, m =>
    let (n, slip) := env.slip_read_byte m.slip byte
    let m1 := { m with slip := slip }.call (.slip_read_byte byte)
    let m2 :=
      if n ≠ env.SLIP_NO_ERROR then
        if n = env.SLIP_ERROR_INVALID_PACKET then
          m1.call .reset_display
        else
          m1.call (.slip_error n)
      else
        m1
    feed_bytes env rest m2

/-- One pass through the body of the inner `while (1)`. The flag is `true` when
the pass leaves the loop by `break`. -/
def inner_pass (env : MainEnv σ) (m : Main σ) : Bool × Main σ :=
  let m0 := { m with empty_packet_counter := 0 }
  -- read serial port
  let (bytes_read, serial_buf) := env.serial_read m0.reads
  let m1 := m0.call .serial_read
  if bytes_read < 0 then
    (true, { m1.call (.error_reading_serial bytes_read) with state := .QUIT })
  else if bytes_read > 0 then
    (false, feed_bytes env (serial_buf.take bytes_read.toNat) m1)
  else
    -- zero byte packet, increment counter
    let m2 := { m1 with empty_packet_counter := m1.empty_packet_counter + 1 }
    if m2.empty_packet_counter > 512 then
      let m3 := { m2 with empty_packet_counter := 0 }
      -- try opening the serial port to check if it's alive
      let alive := env.check_serial_port m3.probes
      let m4 := m3.call .check_serial_port
      if alive ≠ 0 then
        (true, m4)
      else
        (true, { m4 with state := .ERROR }.call .disconnect)
    else
      (true, m2)

/-- The inner `while (1) { ... }`. -/
def inner_loop (env : MainEnv σ) : Nat → Main σ → Outcome (Main σ)
  | 0, _ => .timeout
  | fuel + 1, m =>
    match inner_pass env m with
    | (true, m1) => .done m1
    | (false, m1) => inner_loop env fuel m1

/-- The body of `while (state == RUN)`: the inner loop, then `usleep(1000)`. -/
def control_iteration (env : MainEnv σ) (fuel : Nat) (m : Main σ) : Outcome (Main σ) :=
  (inner_loop env fuel m).bind fun m1 =>
  .done (m1.call (.usleep 1000))

/-- The control loop `while (state == RUN) { ... }`. -/
def control_loop (env : MainEnv σ) : Nat → Main σ → Outcome (Main σ)
  | 0, _ => .timeout
  | fuel + 1, m =>
    if m.state = .RUN then
      (control_iteration env fuel m).bind (control_loop env fuel)
    else
      .done m

/-- The first `n` iterations of the control loop (fewer when it ends before). -/
def control_iterations (env : MainEnv σ) (fuel : Nat) : Nat → Main σ → Outcome (Main σ)
  | 0, m => .done m
  | n + 1, m =>
    if m.state = .RUN then
      (control_iteration env fuel m).bind (control_iterations env fuel n)
    else
      .done m

/-- Start of `main`: the globals as initialised (`state = QUIT`,
`empty_packet_counter = 0`), then
`if (initialize_serial(1, NULL) && enable_and_reset_display() && initialize_virtual_joystick())`. -/
def main_start (env : MainEnv σ) (slip : σ) : Main σ :=
  let m : Main σ := ⟨.QUIT, 0, slip, []⟩
  let m1 := m.call .initialize_serial
  if env.initialize_serial ≠ 0 then
    let m2 := m1.call .enable_and_reset_display
    if env.enable_and_reset_display ≠ 0 then
      let m3 := m2.call .initialize_virtual_joystick
      if env.initialize_virtual_joystick ≠ 0 then
        { m3 with state := .RUN }
      else
        { m3 with state := .ERROR }
    else
      { m2 with state := .ERROR }
  else
    { m1 with state := .ERROR }

/-- End of `main`: `destroy_virtual_joystick()` and the exit status. -/
def main_exit (m : Main σ) : Int × Main σ :=
  let m1 := m.call .destroy_virtual_joystick
  if m1.state = .ERROR then
    (EXIT_FAILURE, m1)
  else
    (EXIT_SUCCESS, m1)

/-- `int main(const int argc, char *argv[])`, signals apart. -/
def main (env : MainEnv σ) (fuel : Nat) (slip : σ) : Outcome (Int × Main σ) :=
  (control_loop env fuel (main_start env slip)).bind fun m =>
  .done (main_exit m)

/-! ## Sample environments and inputs -/

/-- A link that stays silent: every read returns zero bytes, and the device
would not be found by a probe. The SLIP handler is left abstract. -/
def MainEnv.silent : MainEnv Unit :=
  { initialize_serial := 1
    enable_and_reset_display := 1
    initialize_virtual_joystick := 1
    serial_read := fun _ => (0, [])
    check_serial_port := fun _ => 0
    slip_read_byte := fun s _ => (0, s)
    SLIP_NO_ERROR := 0
    SLIP_ERROR_INVALID_PACKET := 3 }

/-- A link whose first read already fails. -/
def MainEnv.broken : MainEnv Unit :=
  { MainEnv.silent with serial_read := fun _ => (-1, []) }

theorem and_two_pow_pos_iff (k i : Nat) : 0 < k &&& 2 ^ i ↔ k.testBit i = true := by
  constructor
  · intro h
    obtain ⟨j, hj⟩ := Nat.ne_zero_implies_bit_true (Nat.pos_iff_ne_zero.mp h)
    rw [Nat.testBit_and, Nat.testBit_two_pow] at hj
    simp only [Bool.and_eq_true, decide_eq_true_eq] at hj
    rw [hj.2]
    exact hj.1
  · intro h
    apply Nat.pos_iff_ne_zero.mpr
    intro h0
    have h1 : (k &&& 2 ^ i).testBit i = true := by
      rw [Nat.testBit_and, Nat.testBit_two_pow, h]
      simp
    rw [h0, Nat.zero_testBit] at h1
    exact Bool.false_ne_true h1

theorem gt_zero_and_two_pow (k i : Nat) :
    gt_zero (k &&& 2 ^ i) = if k.testBit i = true then 1 else 0 := by
  unfold gt_zero
  by_cases h : k.testBit i = true
  · rw [if_pos h, if_pos ((and_two_pow_pos_iff k i).mpr h)]
  · rw [if_neg h, if_neg (fun hp => h ((and_two_pow_pos_iff k i).mp hp))]

/-- The snapshot that `send_virtual_joystick_message` builds for `keycode`. -/
theorem send_virtual_joystick_message_uinput (env : Env) (k : Nat) (s : State) :
    (send_virtual_joystick_message env k s).2.uinput = s.uinput ++ [snapshot k] := by
  have e7 : key_left = 2 ^ 7 := by decide
  have e6 : key_up = 2 ^ 6 := by decide
  have e5 : key_down = 2 ^ 5 := by decide
  have e4 : key_select = 2 ^ 4 := by decide
  have e3 : key_start = 2 ^ 3 := by decide
  have e2 : key_right = 2 ^ 2 := by decide
  have e1 : key_opt = 2 ^ 1 := by decide
  have e0 : key_edit = 2 ^ 0 := by decide
  unfold send_virtual_joystick_message
  rw [e7, e6, e5, e4, e3, e2, e1, e0]
  simp only [gt_zero_and_two_pow, set_event]
  split <;> simp [State.emit, List.replicate, snapshot]

theorem dump_packet_loop_eq (size : Nat) (recv_buf : List Nat) (hsz : size ≤ 65535)
    (hlen : size ≤ recv_buf.length) :
    ∀ (fuel a : Nat) (s : State), a ≤ size → size - a < fuel →
      dump_packet_loop size recv_buf fuel a s =
        .done { s with log := s.log ++ ((recv_buf.take size).drop a).map Diag.hex_byte } := by
  intro fuel
  induction fuel with
  | zero => intro a s _ h; omega
  | succ fuel ih =>
    intro a s ha hf
    unfold dump_packet_loop
    by_cases hlt : a < size
    · have hget : recv_buf.get? a = some (recv_buf.get ⟨a, by omega⟩) := List.get?_eq_get _
      have hmod : (a + 1) % 65536 = a + 1 := Nat.mod_eq_of_lt (by omega)
      have hl : a < (recv_buf.take size).length := by
        rw [List.length_take]; omega
      have hdrop : (recv_buf.take size).drop a
          = recv_buf.get ⟨a, by omega⟩ :: (recv_buf.take size).drop (a + 1) := by
        rw [List.drop_eq_getElem_cons hl, List.getElem_take]
        rfl
      rw [if_pos hlt, hget, hmod]
      simp only []
      rw [ih (a + 1) _ (by omega) (by omega), hdrop]
      simp [State.emit]
    · have hEq : a = size := by omega
      rw [if_neg hlt]
      subst hEq
      have hnil : (recv_buf.take a).drop a = [] := by
        apply List.drop_eq_nil_of_le
        rw [List.length_take]; omega
      rw [hnil]
      simp

theorem dump_packet_eq (fuel : Nat) (data : List Nat) (s : State)
    (hsz : data.length ≤ 65535) (hf : data.length < fuel) :
    dump_packet fuel data.length (data ++ [0]) s =
      .done { s with log := s.log ++ data.map Diag.hex_byte ++ [Diag.newline] } := by
  unfold dump_packet
  rw [dump_packet_loop_eq data.length (data ++ [0]) hsz (by simp) fuel 0 s (by omega) (by omega)]
  simp [Outcome.bind, State.emit]

/-- The copy of a packet within the range of the 16-bit index of `dump_packet`
has a 32-bit length and fits the stack. -/
theorem rx_buffer_fits (env : Env) (data : List Nat) (h : data.length ≤ 65535) :
    ¬ 4294967296 ≤ data.length + 1 ∧ ¬ env.stack < data.length + 1 := by
  have := env.stack_min
  omega

theorem process_command_joypad_eq (env : Env) (fuel : Nat) (k third : Nat) (s : State) :
    process_command env fuel [0xFB, k, third] s =
      .done (if env.write s.uinput.length < 0 then 0 else 1,
        (send_virtual_joystick_message env k s).2) := by
  have hfit := rx_buffer_fits env [0xFB, k, third] (by simp)
  unfold process_command
  simp only [if_neg hfit.1, if_neg hfit.2]
  simp [joypad_keypressedstate_command, joypad_keypressedstate_command_datalength]
  unfold send_virtual_joystick_message
  split <;> simp

theorem three_bytes (data : List Nat) (hlen : data.length = 3) (c : Nat)
    (hcmd : data.head? = some c) : ∃ k third, data = [c, k, third] := by
  match data, hlen, hcmd with
  | [a, k, third], _, h =>
    simp at h
    exact ⟨k, third, by rw [h]⟩

theorem rx_buffer_head (data : List Nat) (c : Nat) (hcmd : data.head? = some c) :
    (data ++ [0]).get? 0 = some c := by
  cases data with
  | nil => simp at hcmd
  | cons a rest =>
    simp at hcmd
    simp [hcmd]

theorem process_command_system_info_first_eq (env : Env) (fuel : Nat)
    (t major minor patch last : Nat) (name : String) (s : State)
    (hflag : s.system_info_printed = 0) (ht : hw_type.get? t = some name) :
    process_command env fuel [0xFF, t, major, minor, patch, last] s =
      .done (1,
        { s with
          log := s.log ++ [Diag.hardware_info name major minor patch],
          system_info_printed := 1 }) := by
  have hfit := rx_buffer_fits env [0xFF, t, major, minor, patch, last] (by simp)
  unfold process_command
  simp only [if_neg hfit.1, if_neg hfit.2]
  simp [joypad_keypressedstate_command, system_info_command,
    system_info_command_datalength, hflag, State.emit]
  simp at ht
  simp [ht]

theorem feed_bytes_frame (env : MainEnv σ) :
    ∀ (bytes : List Nat) (m : Main σ),
      (feed_bytes env bytes m).state = m.state
      ∧ (feed_bytes env bytes m).reads = m.reads
      ∧ (feed_bytes env bytes m).probes = m.probes
      ∧ (feed_bytes env bytes m).disconnects = m.disconnects := by
  intro bytes
  induction bytes with
  | nil => intro m; exact ⟨rfl, rfl, rfl, rfl⟩
  | cons b rest ih =>
    intro m
    unfold feed_bytes
    simp only []
    split_ifs <;>
    · obtain ⟨h1, h2, h3, h4⟩ := ih _
      rw [h1, h2, h3, h4]
      simp [Main.call, Main.reads, Main.probes, Main.disconnects, List.count_append]

/-- No pass through the inner loop body reaches `check_serial_port`: the counter
is set to 0 when the pass begins, so it is 1 when it is compared with 512. -/
theorem inner_pass_no_probe (env : MainEnv σ) (m : Main σ) :
    (inner_pass env m).2.probes = m.probes
    ∧ (inner_pass env m).2.disconnects = m.disconnects
    ∧ (inner_pass env m).2.reads = m.reads + 1
    ∧ ((inner_pass env m).2.state = m.state ∨ (inner_pass env m).2.state = .QUIT) := by
  unfold inner_pass
  simp only []
  split_ifs with h1 h2 h3
  · simp [Main.call, Main.reads, Main.probes, Main.disconnects, List.count_append]
  · obtain ⟨f1, f2, f3, f4⟩ := feed_bytes_frame env
      (List.take (env.serial_read m.reads).1.toNat (env.serial_read m.reads).2)
      (Main.call { m with empty_packet_counter := 0 } Call.serial_read)
    simp only [Main.call, Main.reads, Main.probes, Main.disconnects] at f1 f2 f3 f4 ⊢
    rw [f1, f2, f3, f4]
    simp [List.count_append]
  · simp [Main.call] at h3
  · simp [Main.call] at h3
  · simp [Main.call, Main.reads, Main.probes, Main.disconnects, List.count_append]

theorem inner_pass_empty (env : MainEnv σ) (m : Main σ)
    (h : (env.serial_read m.reads).1 = 0) :
    inner_pass env m =
      (true, { m with empty_packet_counter := 1, calls := m.calls ++ [Call.serial_read] }) := by
  unfold inner_pass
  simp only [Main.reads, Main.call] at h ⊢
  simp [h]

theorem inner_pass_error (env : MainEnv σ) (m : Main σ)
    (h : (env.serial_read m.reads).1 < 0) :
    inner_pass env m =
      (true,
        { m with
          empty_packet_counter := 0,
          state := .QUIT,
          calls := m.calls ++ [Call.serial_read]
            ++ [Call.error_reading_serial (env.serial_read m.reads).1] }) := by
  unfold inner_pass
  simp only [Main.reads, Main.call] at h ⊢
  simp [h]

theorem main_start_failure (env : MainEnv σ) (slip : σ)
    (hfail : env.initialize_serial = 0 ∨ env.enable_and_reset_display = 0
      ∨ env.initialize_virtual_joystick = 0) :
    (main_start env slip).state = .ERROR := by
  unfold main_start
  simp only []
  split_ifs with h1 h2 h3
  · rcases hfail with h | h | h
    · exact absurd h h1
    · exact absurd h h2
    · exact absurd h h3
  · rfl
  · rfl
  · rfl

/-- C1: for every keycode `k`, `send_virtual_joystick_message k` hands the sink
exactly one buffer of 9 events: a key event for each of the 8 distinct buttons
DPAD_UP, DPAD_DOWN, DPAD_LEFT, DPAD_RIGHT, A, B, START, SELECT, then one sync
report of value 0; the value of a key event is 1 when the bit of its button is
set in `k` and 0 otherwise (left 7, up 6, down 5, select 4, start 3, right 2,
opt/B 1, edit/A 0), each bit on its own. -/
theorem send_virtual_joystick_message_snapshot (env : Env) (k : Nat) (s : State) :
    ∃ ev : List input_event,
      (send_virtual_joystick_message env k s).2.uinput = s.uinput ++ [ev]
      ∧ ev.length = 9
      ∧ ev =
        [⟨EV_KEY, BTN_DPAD_UP, if k.testBit 6 = true then 1 else 0⟩,
         ⟨EV_KEY, BTN_DPAD_DOWN, if k.testBit 5 = true then 1 else 0⟩,
         ⟨EV_KEY, BTN_DPAD_LEFT, if k.testBit 7 = true then 1 else 0⟩,
         ⟨EV_KEY, BTN_DPAD_RIGHT, if k.testBit 2 = true then 1 else 0⟩,
         ⟨EV_KEY, BTN_A, if k.testBit 0 = true then 1 else 0⟩,
         ⟨EV_KEY, BTN_B, if k.testBit 1 = true then 1 else 0⟩,
         ⟨EV_KEY, BTN_START, if k.testBit 3 = true then 1 else 0⟩,
         ⟨EV_KEY, BTN_SELECT, if k.testBit 4 = true then 1 else 0⟩,
         ⟨EV_SYN, SYN_REPORT, 0⟩]
      ∧ [BTN_DPAD_UP, BTN_DPAD_DOWN, BTN_DPAD_LEFT, BTN_DPAD_RIGHT,
          BTN_A, BTN_B, BTN_START, BTN_SELECT].Nodup
      ∧ EV_KEY ≠ EV_SYN
      ∧ ev = snapshot k := by
  refine ⟨snapshot k, send_virtual_joystick_message_uinput env k s, rfl, rfl, ?_, ?_, rfl⟩
  · decide
  · decide

/-- C2: for every packet of exactly 3 bytes whose first byte is 0xFB,
`process_command` calls `send_virtual_joystick_message` once, on the byte at
index 1 of the packet: one buffer, the snapshot of that byte, reaches the sink;
the result is 1 when the `write` succeeds and 0 when it fails; this holds in
every state, and the same packet twice in a row is forwarded twice. -/
theorem process_command_joypad_forwards (env : Env) (fuel : Nat) (data : List Nat)
    (s : State) (hlen : data.length = 3) (hcmd : data.head? = some 0xFB) :
    ∃ keycode : Nat,
      data.get? 1 = some keycode
      ∧ process_command env fuel data s =
          .done (if env.write s.uinput.length < 0 then 0 else 1,
            (send_virtual_joystick_message env keycode s).2)
      ∧ (send_virtual_joystick_message env keycode s).2.uinput
          = s.uinput ++ [snapshot keycode]
      ∧ ∃ (r1 r2 : Int) (s2 : State),
          process_packets env fuel [data, data] s = .done ([r1, r2], s2)
          ∧ s2.uinput = s.uinput ++ [snapshot keycode, snapshot keycode] := by
  obtain ⟨k, third, rfl⟩ := three_bytes data hlen 0xFB hcmd
  refine ⟨k, rfl, process_command_joypad_eq env fuel k third s,
    send_virtual_joystick_message_uinput env k s, ?_⟩
  simp only [process_packets, process_command_joypad_eq, Outcome.bind]
  refine ⟨_, _, _, rfl, ?_⟩
  simp [send_virtual_joystick_message_uinput]

/-- Witness of C2 at the packet `[0xFB, 0x81, 0x00]` on a failing sink. -/
theorem process_command_joypad_forwards_witness :
    ([0xFB, 0x81, 0x00] : List Nat).length = 3
    ∧ ([0xFB, 0x81, 0x00] : List Nat).head? = some 0xFB
    ∧ ∃ keycode : Nat,
      ([0xFB, 0x81, 0x00] : List Nat).get? 1 = some keycode
      ∧ process_command Env.failing 0 [0xFB, 0x81, 0x00] State.init =
          .done (if Env.failing.write State.init.uinput.length < 0 then 0 else 1,
            (send_virtual_joystick_message Env.failing keycode State.init).2)
      ∧ (send_virtual_joystick_message Env.failing keycode State.init).2.uinput
          = State.init.uinput ++ [snapshot keycode]
      ∧ ∃ (r1 r2 : Int) (s2 : State),
          process_packets Env.failing 0 [[0xFB, 0x81, 0x00], [0xFB, 0x81, 0x00]] State.init
            = .done ([r1, r2], s2)
          ∧ s2.uinput = State.init.uinput ++ [snapshot keycode, snapshot keycode] :=
  ⟨rfl, rfl, process_command_joypad_forwards Env.failing 0 [0xFB, 0x81, 0x00] State.init rfl rfl⟩


/-- C3, counterexample: for the packet `[0xFB, 0x00, 0b10000001]` the snapshot
that reaches the sink has all eight buttons released; it is not the one with
left and edit/A pressed, because the keycode is read at index 1. -/
theorem process_command_third_byte_ignored :
    process_command Env.accepting 0 [0xFB, 0x00, 0b10000001] State.init =
      .done (1,
        { system_info_printed := 0,
          uinput :=
            [[⟨EV_KEY, BTN_DPAD_UP, 0⟩, ⟨EV_KEY, BTN_DPAD_DOWN, 0⟩,
              ⟨EV_KEY, BTN_DPAD_LEFT, 0⟩, ⟨EV_KEY, BTN_DPAD_RIGHT, 0⟩,
              ⟨EV_KEY, BTN_A, 0⟩, ⟨EV_KEY, BTN_B, 0⟩,
              ⟨EV_KEY, BTN_START, 0⟩, ⟨EV_KEY, BTN_SELECT, 0⟩,
              ⟨EV_SYN, SYN_REPORT, 0⟩]],
          log := [] })
    ∧ process_command Env.accepting 0 [0xFB, 0x00, 0b10000001] State.init ≠
      .done (1,
        { system_info_printed := 0,
          uinput :=
            [[⟨EV_KEY, BTN_DPAD_UP, 0⟩, ⟨EV_KEY, BTN_DPAD_DOWN, 0⟩,
              ⟨EV_KEY, BTN_DPAD_LEFT, 1⟩, ⟨EV_KEY, BTN_DPAD_RIGHT, 0⟩,
              ⟨EV_KEY, BTN_A, 1⟩, ⟨EV_KEY, BTN_B, 0⟩,
              ⟨EV_KEY, BTN_START, 0⟩, ⟨EV_KEY, BTN_SELECT, 0⟩,
              ⟨EV_SYN, SYN_REPORT, 0⟩]],
          log := [] }) := by
  constructor
  · decide
  · decide

/-- C3, amended: the keycode that `process_command` projects for a 3-byte
control-surface packet is the byte at index 1 (the second byte); the third
byte is not read. So `[0xFB, 0b10000001, 0x00]` forwards a snapshot with left
and edit/A pressed and the six other buttons released, and
`[0xFB, 0x00, 0b10000001]` forwards one with all eight released. -/
theorem process_command_projects_second_byte (env : Env) (fuel : Nat) (k third : Nat)
    (s : State) :
    (∃ (r : Int) (s1 : State),
      process_command env fuel [0xFB, k, third] s = .done (r, s1)
      ∧ s1.uinput = s.uinput ++ [snapshot k]
      ∧ process_command env fuel [0xFB, k, 0] s = .done (r, s1))
    ∧ (∃ (r : Int) (s1 : State),
      process_command env fuel [0xFB, 0b10000001, 0x00] s = .done (r, s1)
      ∧ s1.uinput = s.uinput ++
          [[⟨EV_KEY, BTN_DPAD_UP, 0⟩, ⟨EV_KEY, BTN_DPAD_DOWN, 0⟩,
            ⟨EV_KEY, BTN_DPAD_LEFT, 1⟩, ⟨EV_KEY, BTN_DPAD_RIGHT, 0⟩,
            ⟨EV_KEY, BTN_A, 1⟩, ⟨EV_KEY, BTN_B, 0⟩,
            ⟨EV_KEY, BTN_START, 0⟩, ⟨EV_KEY, BTN_SELECT, 0⟩,
            ⟨EV_SYN, SYN_REPORT, 0⟩]])
    ∧ (∃ (r : Int) (s1 : State),
      process_command env fuel [0xFB, 0x00, 0b10000001] s = .done (r, s1)
      ∧ s1.uinput = s.uinput ++
          [[⟨EV_KEY, BTN_DPAD_UP, 0⟩, ⟨EV_KEY, BTN_DPAD_DOWN, 0⟩,
            ⟨EV_KEY, BTN_DPAD_LEFT, 0⟩, ⟨EV_KEY, BTN_DPAD_RIGHT, 0⟩,
            ⟨EV_KEY, BTN_A, 0⟩, ⟨EV_KEY, BTN_B, 0⟩,
            ⟨EV_KEY, BTN_START, 0⟩, ⟨EV_KEY, BTN_SELECT, 0⟩,
            ⟨EV_SYN, SYN_REPORT, 0⟩]]) := by
  refine ⟨⟨_, _, process_command_joypad_eq env fuel k third s,
      send_virtual_joystick_message_uinput env k s,
      process_command_joypad_eq env fuel k 0 s⟩,
    ⟨_, _, process_command_joypad_eq env fuel _ _ s, ?_⟩,
    ⟨_, _, process_command_joypad_eq env fuel _ _ s, ?_⟩⟩
  · rw [send_virtual_joystick_message_uinput]
    rfl
  · rw [send_virtual_joystick_message_uinput]
    rfl

/-- C5, what the code does: a packet whose first byte is 0xFF and whose length
is not 6 is logged as invalid, and then `break` leads to the final `return 1`:
the result is 1, not 0. The flag and the sink are untouched. -/
theorem process_command_system_info_bad_length (env : Env) (fuel : Nat) (data : List Nat)
    (s : State) (hcmd : data.head? = some 0xFF) (hlen : data.length ≠ 6)
    (hsz : data.length ≤ 65535) (hfuel : data.length < fuel) :
    process_command env fuel data s =
      .done (1,
        { s with
          log := s.log ++ [Diag.invalid_system_info 6 data.length]
            ++ data.map Diag.hex_byte ++ [Diag.newline] }) := by
  have hfit := rx_buffer_fits env data hsz
  unfold process_command
  simp only [if_neg hfit.1, if_neg hfit.2, rx_buffer_head data _ hcmd]
  simp [joypad_keypressedstate_command, system_info_command,
    system_info_command_datalength, hlen,
    dump_packet_eq fuel data _ hsz hfuel, Outcome.bind, State.emit]

/-- Witness of C5 at the 5-byte packet `[0xFF, 0x02, 1, 2, 3]`: the result is 1. -/
theorem process_command_system_info_bad_length_witness :
    ([0xFF, 0x02, 1, 2, 3] : List Nat).head? = some 0xFF
    ∧ ([0xFF, 0x02, 1, 2, 3] : List Nat).length ≠ 6
    ∧ process_command Env.accepting 6 [0xFF, 0x02, 1, 2, 3] State.init =
      .done (1,
        { system_info_printed := State.init.system_info_printed,
          uinput := State.init.uinput,
          log := State.init.log
            ++ [Diag.invalid_system_info 6 ([0xFF, 0x02, 1, 2, 3] : List Nat).length]
            ++ ([0xFF, 0x02, 1, 2, 3] : List Nat).map Diag.hex_byte ++ [Diag.newline] }) :=
  ⟨rfl, by decide,
    process_command_system_info_bad_length Env.accepting 6 [0xFF, 0x02, 1, 2, 3] State.init
      rfl (by decide) (by decide) (by decide)⟩


/-- C6, counterexample: the 1-byte packets `[0xFD]`, `[0xFE]` and `[0xFC]` lie
outside the length constants of their commands and are accepted with result 1. -/
theorem process_command_drawing_unchecked :
    ([0xFD] : List Nat).length ≠ draw_character_command_datalength
    ∧ process_command Env.accepting 0 [0xFD] State.init = .done (1, State.init)
    ∧ ([0xFE] : List Nat).length < draw_rectangle_command_min_datalength
    ∧ process_command Env.accepting 0 [0xFE] State.init = .done (1, State.init)
    ∧ ([0xFC] : List Nat).length < draw_oscilloscope_waveform_command_mindatalength
    ∧ process_command Env.accepting 0 [0xFC] State.init = .done (1, State.init) := by
  decide

/-- C6, amended: for every packet whose first byte is a drawing command (0xFE
rectangle, 0xFD character, 0xFC waveform) and whose copy `rx_buffer[size + 1]`
can be declared (`size + 1` fits 32 bits, the array fits the stack),
`process_command` checks no length: whatever the length, inside or outside the
length constants of the enum, it returns 1 and changes nothing. -/
theorem process_command_drawing_accepted (env : Env) (fuel : Nat) (data : List Nat)
    (s : State)
    (hcmd : data.head? = some 0xFE ∨ data.head? = some 0xFD ∨ data.head? = some 0xFC)
    (hsize : data.length + 1 < 4294967296) (hstack : data.length < env.stack) :
    process_command env fuel data s = .done (1, s) := by
  have h32 : ¬ 4294967296 ≤ data.length + 1 := by omega
  have hst : ¬ env.stack < data.length + 1 := by omega
  unfold process_command
  rcases hcmd with h | h | h <;>
  · simp only [if_neg h32, if_neg hst, rx_buffer_head data _ h]
    simp [joypad_keypressedstate_command, system_info_command, draw_character_command,
      draw_oscilloscope_waveform_command, draw_rectangle_command]

/-- Witness of C6, amended, at the 3-byte character packet `[0xFD, 1, 2]`. -/
theorem process_command_drawing_accepted_witness :
    (([0xFD, 1, 2] : List Nat).head? = some 0xFE ∨ ([0xFD, 1, 2] : List Nat).head? = some 0xFD
      ∨ ([0xFD, 1, 2] : List Nat).head? = some 0xFC)
    ∧ ([0xFD, 1, 2] : List Nat).length + 1 < 4294967296
    ∧ ([0xFD, 1, 2] : List Nat).length < Env.accepting.stack
    ∧ process_command Env.accepting 0 [0xFD, 1, 2] State.init = .done (1, State.init) :=
  ⟨Or.inr (Or.inl rfl), by decide, by decide,
    process_command_drawing_accepted Env.accepting 0 [0xFD, 1, 2] State.init
      (Or.inr (Or.inl rfl)) (by decide) (by decide)⟩

/-- C9, what the code does: `empty_packet_counter = 0;` is the first statement
of the inner loop body, so the counter is 1 after every empty read. Over `n`
consecutive empty reads from state RUN (513 among them) the comparison with
512 never succeeds: `check_serial_port` and `disconnect` are not called, the
state stays RUN, and no pass through the loop body ever adds a probe. -/
theorem empty_reads_never_probe (env : MainEnv σ) (fuel n : Nat) (m : Main σ)
    (hrun : m.state = .RUN)
    (hzero : ∀ i, i < n → (env.serial_read (m.reads + i)).1 = 0) :
    (∃ m1 : Main σ,
      control_iterations env (fuel + 1) n m = .done m1
      ∧ m1.state = .RUN
      ∧ m1.reads = m.reads + n
      ∧ m1.probes = m.probes
      ∧ m1.disconnects = m.disconnects
      ∧ (0 < n → m1.empty_packet_counter = 1))
    ∧ ∀ m2 : Main σ, (inner_pass env m2).2.probes = m2.probes := by
  refine ⟨?_, fun m2 => (inner_pass_no_probe env m2).1⟩
  induction n generalizing m with
  | zero => exact ⟨m, rfl, hrun, rfl, rfl, rfl, fun h => absurd h (by decide)⟩
  | succ n ih =>
    have h0 : (env.serial_read m.reads).1 = 0 := hzero 0 (Nat.succ_pos n)
    have hreads : (Main.call
        { m with empty_packet_counter := 1, calls := m.calls ++ [Call.serial_read] }
        (Call.usleep 1000)).reads = m.reads + 1 := by
      simp [Main.call, Main.reads, List.count_append]
    obtain ⟨m1, hm1, hs, hr, hp, hd, hc⟩ := ih
      (Main.call
        { m with empty_packet_counter := 1, calls := m.calls ++ [Call.serial_read] }
        (Call.usleep 1000)) hrun
      (by
        intro i hi
        rw [hreads, Nat.add_assoc, Nat.add_comm 1 i]
        exact hzero (i + 1) (Nat.succ_lt_succ hi))
    refine ⟨m1, ?_, hs, ?_, ?_, ?_, ?_⟩
    · simp only [control_iterations, if_pos hrun, control_iteration, inner_loop,
        inner_pass_empty env m h0, Outcome.bind]
      exact hm1
    · rw [hr, hreads]; omega
    · rw [hp]; simp [Main.call, Main.probes, List.count_append]
    · rw [hd]; simp [Main.call, Main.disconnects, List.count_append]
    · intro _
      cases n with
      | zero =>
        simp only [control_iterations] at hm1
        injection hm1 with hm1
        rw [← hm1]
        rfl
      | succ k => exact hc (Nat.succ_pos k)

/-- Witness of C9 on a silent link: after 513 empty reads from the start of the
control loop the state is RUN, the counter is 1 and no probe was made. -/
theorem empty_reads_never_probe_witness :
    (main_start MainEnv.silent ()).state = .RUN
    ∧ (∀ i, i < 513 →
        (MainEnv.silent.serial_read ((main_start MainEnv.silent ()).reads + i)).1 = 0)
    ∧ (∃ m1 : Main Unit,
      control_iterations MainEnv.silent (0 + 1) 513 (main_start MainEnv.silent ()) = .done m1
      ∧ m1.state = .RUN
      ∧ m1.reads = (main_start MainEnv.silent ()).reads + 513
      ∧ m1.probes = (main_start MainEnv.silent ()).probes
      ∧ m1.disconnects = (main_start MainEnv.silent ()).disconnects
      ∧ (0 < 513 → m1.empty_packet_counter = 1))
    ∧ ∀ m2 : Main Unit, (inner_pass MainEnv.silent m2).2.probes = m2.probes :=
  ⟨rfl, fun _ _ => rfl,
    empty_reads_never_probe MainEnv.silent 0 513 (main_start MainEnv.silent ()) rfl
      (fun _ _ => rfl)⟩

/-- C10, counterexample: when the first read fails, `main` makes that one read
and returns `EXIT_SUCCESS` with state QUIT, not ERROR. -/
theorem read_error_exits_with_success :
    (∃ m : Main Unit,
      main MainEnv.broken 2 () = .done (EXIT_SUCCESS, m)
      ∧ m.state = .QUIT
      ∧ m.state ≠ .ERROR
      ∧ m.reads = 1)
    ∧ EXIT_SUCCESS ≠ EXIT_FAILURE := by
  refine ⟨⟨_, rfl, rfl, by decide, by decide⟩, by decide⟩

/-- C10, amended: whenever a transport read returns a negative value while the
state is RUN, the inner loop is left at once with state QUIT, the control loop
ends without another read, probe or disconnect, and `main` returns the success
exit status; an initialization failure, unlike it, gives state ERROR and the
failure exit status. -/
theorem read_error_quits (env : MainEnv σ) (fuel : Nat) (m : Main σ)
    (hrun : m.state = .RUN) (herr : (env.serial_read m.reads).1 < 0) :
    (∃ m1 : Main σ,
      inner_loop env (fuel + 1) m = .done m1
      ∧ m1.state = .QUIT
      ∧ control_loop env (fuel + 1) (m1.call (.usleep 1000)) = .done (m1.call (.usleep 1000))
      ∧ control_loop env (fuel + 2) m = .done (m1.call (.usleep 1000))
      ∧ (m1.call (.usleep 1000)).reads = m.reads + 1
      ∧ (m1.call (.usleep 1000)).probes = m.probes
      ∧ (m1.call (.usleep 1000)).disconnects = m.disconnects
      ∧ (main_exit (m1.call (.usleep 1000))).1 = EXIT_SUCCESS
      ∧ (main_exit (m1.call (.usleep 1000))).2.state = .QUIT)
    ∧ (∀ slip : σ,
        env.initialize_serial = 0 ∨ env.enable_and_reset_display = 0
          ∨ env.initialize_virtual_joystick = 0 →
        ∃ m2 : Main σ, main env (fuel + 1) slip = .done (EXIT_FAILURE, m2)
          ∧ m2.state = .ERROR) := by
  constructor
  · refine ⟨{ m with
        empty_packet_counter := 0,
        state := .QUIT,
        calls := m.calls ++ [Call.serial_read]
          ++ [Call.error_reading_serial (env.serial_read m.reads).1] },
      ?_, ?_, ?_, ?_, ?_, ?_, ?_, ?_, ?_⟩
    · simp only [inner_loop, inner_pass_error env m herr]
    · rfl
    · simp [control_loop, Main.call]
    · simp [control_loop, if_pos hrun, control_iteration, inner_loop,
        inner_pass_error env m herr, Outcome.bind, Main.call]
    · simp [Main.call, Main.reads, List.count_append]
    · simp [Main.call, Main.probes, List.count_append]
    · simp [Main.call, Main.disconnects, List.count_append]
    · simp [main_exit, Main.call]
    · simp [main_exit, Main.call]
  · intro slip hfail
    have hst := main_start_failure env slip hfail
    refine ⟨(main_start env slip).call .destroy_virtual_joystick, ?_, ?_⟩
    · simp [main, control_loop, hst, Outcome.bind, main_exit, Main.call]
    · simp [Main.call, hst]

/-- Witness of C10, amended, on a link whose first read fails. -/
theorem read_error_quits_witness :
    (main_start MainEnv.broken ()).state = .RUN
    ∧ (MainEnv.broken.serial_read (main_start MainEnv.broken ()).reads).1 < 0
    ∧ (∃ m1 : Main Unit,
      inner_loop MainEnv.broken (0 + 1) (main_start MainEnv.broken ()) = .done m1
      ∧ m1.state = .QUIT
      ∧ control_loop MainEnv.broken (0 + 1) (m1.call (.usleep 1000))
          = .done (m1.call (.usleep 1000))
      ∧ control_loop MainEnv.broken (0 + 2) (main_start MainEnv.broken ())
          = .done (m1.call (.usleep 1000))
      ∧ (m1.call (.usleep 1000)).reads = (main_start MainEnv.broken ()).reads + 1
      ∧ (m1.call (.usleep 1000)).probes = (main_start MainEnv.broken ()).probes
      ∧ (m1.call (.usleep 1000)).disconnects = (main_start MainEnv.broken ()).disconnects
      ∧ (main_exit (m1.call (.usleep 1000))).1 = EXIT_SUCCESS
      ∧ (main_exit (m1.call (.usleep 1000))).2.state = .QUIT)
    ∧ (∀ slip : Unit,
        MainEnv.broken.initialize_serial = 0 ∨ MainEnv.broken.enable_and_reset_display = 0
          ∨ MainEnv.broken.initialize_virtual_joystick = 0 →
        ∃ m2 : Main Unit, main MainEnv.broken (0 + 1) slip = .done (EXIT_FAILURE, m2)
          ∧ m2.state = .ERROR) :=
  ⟨rfl, by decide,
    read_error_quits MainEnv.broken 0 (main_start MainEnv.broken ()) rfl (by decide)⟩

/-- C11, what the code does: in a 6-byte 0xFF packet processed while the
printed-once flag is 0, the reads of `rx_buffer[1]` .. `rx_buffer[4]` fall
inside the packet, but the byte at index 1 is used unchecked as an index into
the 4-entry table `hw_type`: for a byte within 0..3 the lookup is in range and
the report is emitted, for every byte from 4 up (4..255) the lookup falls
outside the table and the call is undefined behaviour. -/
theorem process_command_hw_type_lookup (env : Env) (fuel : Nat)
    (t major minor patch last : Nat) (s : State) (hflag : s.system_info_printed = 0) :
    (([0xFF, t, major, minor, patch, last] : List Nat) ++ [0]).get? 1 = some t
    ∧ (([0xFF, t, major, minor, patch, last] : List Nat) ++ [0]).get? 2 = some major
    ∧ (([0xFF, t, major, minor, patch, last] : List Nat) ++ [0]).get? 3 = some minor
    ∧ (([0xFF, t, major, minor, patch, last] : List Nat) ++ [0]).get? 4 = some patch
    ∧ hw_type.length = 4
    ∧ (t ≤ 3 → ∃ name : String, hw_type.get? t = some name
        ∧ process_command env fuel [0xFF, t, major, minor, patch, last] s =
          .done (1,
            { s with
              log := s.log ++ [Diag.hardware_info name major minor patch],
              system_info_printed := 1 }))
    ∧ (4 ≤ t → hw_type.get? t = none
        ∧ process_command env fuel [0xFF, t, major, minor, patch, last] s = .undefined) := by
  refine ⟨rfl, rfl, rfl, rfl, rfl, ?_, ?_⟩
  · intro ht
    have hlt : t < hw_type.length := by simp [hw_type]; omega
    exact ⟨_, List.get?_eq_get hlt,
      process_command_system_info_first_eq env fuel t major minor patch last _ s hflag
        (List.get?_eq_get hlt)⟩
  · intro ht
    have hnone : hw_type.get? t = none := by
      apply List.get?_eq_none.mpr
      simp [hw_type]
      omega
    refine ⟨hnone, ?_⟩
    have hfit := rx_buffer_fits env [0xFF, t, major, minor, patch, last] (by simp)
    unfold process_command
    simp only [if_neg hfit.1, if_neg hfit.2]
    simp [joypad_keypressedstate_command, system_info_command,
      system_info_command_datalength, hflag]
    rw [List.get?_eq_getElem?] at hnone
    rw [hnone]

/-- Witness of C11 at the packet `[0xFF, 4, 1, 2, 3, 0]` in the state at process
start: index 4 lies outside the 4-entry table. -/
theorem process_command_hw_type_lookup_witness :
    State.init.system_info_printed = 0
    ∧ (4 : Nat) ≤ 4
    ∧ hw_type.get? 4 = none
    ∧ process_command Env.accepting 0 [0xFF, 4, 1, 2, 3, 0] State.init = .undefined :=
  ⟨rfl, Nat.le_refl 4,
    (process_command_hw_type_lookup Env.accepting 0 4 1 2 3 0 State.init rfl).2.2.2.2.2.2
      (Nat.le_refl 4)⟩

end M8
